import Mathlib

/-!
A shallow embedding of `sdk/python/kfp/dsl/_ops_group.py`: the scope-tree
builder for pipeline authoring (`OpsGroup` and its variants `ExitHandler`,
`Condition`, `Graph`, `ParallelFor`, `Parallelism`).

Python strings are modelled as lists of characters (`PyStr`); names are
assumed free of regex metacharacters, so the regex
`'^' + prefix + '[\d]+$'` used by the recursion lookup is modelled as
"literal prefix followed by one or more ASCII digits".  Machinery that the
source file uses but that lives outside it (`_pipeline.Pipeline`, the
`LoopArguments` value type, `ContainerOp`) is modelled from the spec; each
such definition carries a doc comment starting with `Modelled from the
spec:`.  The absent default pipeline is modelled as `none`; each operation
returns `Except DslError` in place of raised Python exceptions.
-/

namespace Kfp

/-- PyStr models a Python `str` as its list of characters. -/
abbrev PyStr := List Char

/-- chars converts a Lean string literal into the model's string type. -/
def chars (s : String) : PyStr := s.data

/-- hyphenate models Python `str.replace('_', '-')` as used by
`_make_name_unique` and `_get_matching_opsgroup_already_in_pipeline`
(a per-character replacement, since both pattern and replacement are
single characters). -/
def hyphenate (s : PyStr) : PyStr := s.map (fun c => if c = '_' then '-' else c)

/-- digitChar is the decimal digit character of `d` for `d < 10`
(and `'9'` beyond, which is never reached by `natToCharsAux`). -/
def digitChar (d : Nat) : Char :=
  match d with
  | 0 => '0' | 1 => '1' | 2 => '2' | 3 => '3' | 4 => '4'
  | 5 => '5' | 6 => '6' | 7 => '7' | 8 => '8' | _ => '9'

/-- natToCharsAux renders `n` in decimal, structurally recursive on a fuel
bound so that the kernel can evaluate it. -/
def natToCharsAux : Nat → Nat → List Char
  | 0, _ => []
  | fuel+1, n =>
    if n < 10 then [digitChar n]
    else natToCharsAux fuel (n / 10) ++ [digitChar (n % 10)]

/-- natToChars models Python `str(<nonnegative int>)`: the decimal digits of
`n`.  `n + 1` units of fuel always suffice since `n / 10 < n` for `n ≥ 10`. -/
def natToChars (n : Nat) : List Char := natToCharsAux (n + 1) n

/-- isPrefixThenDigits checks that the candidate consists of the given
literal prefix followed by one or more digits. -/
def isPrefixThenDigits : List Char → List Char → Bool
  | [], cand => !cand.isEmpty && cand.all Char.isDigit
  | _ :: _, [] => false
  | p :: ps, c :: cs => p == c && isPrefixThenDigits ps cs

/-- matchesNamePattern models
`re.match('^' + (group_type + '-' + name + '-').replace('_', '-') + '[\d]+$', candidate)`
from `_get_matching_opsgroup_already_in_pipeline`, for names free of regex
metacharacters; `[\d]` is modelled as `Char.isDigit` (ASCII). -/
def matchesNamePattern (group_type name candidate : PyStr) : Bool :=
  isPrefixThenDigits (hyphenate (group_type ++ chars "-" ++ name ++ chars "-")) candidate

/-- DslError enumerates the abstract error kinds of spec section 7; each
constructor's comment names the concrete Python exception the source raises. -/
inductive DslError where
  /-- Python `ValueError('Default pipeline not defined.')`: the explicit
  no-active-context check. -/
  | noActiveContext
  /-- Python `ValueError('exit_op cannot depend on any other ops.')` from
  `ExitHandler.__init__`. -/
  | invalidExitOp
  /-- Python `AssertionError` from `assert parallelism > 0` in
  `Parallelism.__init__`. -/
  | invalidParallelism
  /-- Python `AttributeError` raised by calling a method on `None` when
  `get_default_pipeline()` yields no pipeline and the source performs no
  explicit check (`OpsGroup.__exit__`, `ExitHandler.__init__`). -/
  | absentPipelineAttributeError
  /-- Modelled from the spec: `StackUnderflowError`, a pop on an empty
  stack (`_pipeline.Pipeline.pop_ops_group` is not under `src/`). -/
  | stackUnderflow
deriving DecidableEq, Repr

/-- RegGroup is the data of a registered group that the recursion lookup
inspects: its `type` and its name.  Every group is registered at scope
entry, after its name is settled, so the name is present (a plain string). -/
structure RegGroup where
  type : PyStr
  name : PyStr
deriving DecidableEq, Repr

/-- OpsGroupSt carries the identity fields of an `OpsGroup` that
`__enter__` manipulates: `type`, `name` and `recursive_ref`
(`OpsGroup.__init__` starts `recursive_ref` at `None`).  `recursive_ref`
holds the registered data of the matched prior group, if any. -/
structure OpsGroupSt where
  type : PyStr
  name : Option PyStr
  recursive_ref : Option RegGroup
deriving DecidableEq, Repr

/-- Modelled from the spec: the active build context
(`_pipeline.Pipeline`, not under `src/`).  It holds the stack of
currently-open groups, the set of all groups created so far — scanned by
the recursion lookup as `pipeline.groups` — and the monotonically
increasing group-id counter. -/
structure Pipeline where
  stack : List RegGroup
  groups : List RegGroup
  group_id : Nat
deriving DecidableEq, Repr

/-- Modelled from the spec: `push_ops_group` pushes the entering group onto
the stack and registers it in the set of all groups created so far. -/
def pushOpsGroup (st : Pipeline) (e : RegGroup) : Pipeline :=
  { st with stack := st.stack ++ [e], groups := st.groups ++ [e] }

/-- Modelled from the spec: `pop_ops_group` removes the top of the stack;
a pop on an empty stack is a `StackUnderflowError`. -/
def popOpsGroup (st : Pipeline) : Except DslError Pipeline :=
  if st.stack.isEmpty then .error .stackUnderflow
  else .ok { st with stack := st.stack.dropLast }

/-- Modelled from the spec: `get_next_group_id` yields a strictly increasing
integer per active context. -/
def getNextGroupId (st : Pipeline) : Nat × Pipeline :=
  (st.group_id + 1, { st with group_id := st.group_id + 1 })

/-- matchesPrior is the per-candidate test of the scan in
`_get_matching_opsgroup_already_in_pipeline`: the candidate's kind equals
the entering node's kind and its name matches
`^<kind>-<name>-[\d]+$` (with underscores already hyphenated). -/
def matchesPrior (group_type n : PyStr) (g : RegGroup) : Bool :=
  g.type == group_type && matchesNamePattern group_type n g.name

/-- findMatchingPure is the body of
`_get_matching_opsgroup_already_in_pipeline` once the pipeline is known to
be present: `None` name yields no match, otherwise the first registered
group satisfying `matchesPrior` is returned. -/
def findMatchingPure (groups : List RegGroup) (group_type : PyStr)
    (name : Option PyStr) : Option RegGroup :=
  match name with
  | none => none
  | some n => groups.find? (matchesPrior group_type n)

/-- getMatchingOpsgroupAlreadyInPipeline models the static method
`_get_matching_opsgroup_already_in_pipeline(group_type, name)`, including
its explicit check that a default pipeline exists. -/
def getMatchingOpsgroupAlreadyInPipeline (p : Option Pipeline)
    (group_type : PyStr) (name : Option PyStr) : Except DslError (Option RegGroup) :=
  match p with
  | none => .error .noActiveContext
  | some st => .ok (findMatchingPure st.groups group_type name)

/-- mintedName is the name synthesized by `_make_name_unique`:
`(type + '-' + ('' if name is None else name + '-') + str(gid)).replace('_', '-')`. -/
def mintedName (ty : PyStr) (name : Option PyStr) (gid : Nat) : PyStr :=
  hyphenate (ty ++ chars "-" ++
    (match name with | none => [] | some n => n ++ chars "-") ++ natToChars gid)

/-- makeNameUniqueP is `_make_name_unique` once the pipeline is known to be
present: it draws the next group id and overwrites the node's name. -/
def makeNameUniqueP (st : Pipeline) (g : OpsGroupSt) : OpsGroupSt × Pipeline :=
  let (gid, st1) := getNextGroupId st
  ({ g with name := some (mintedName g.type g.name gid) }, st1)

/-- makeNameUnique models `_make_name_unique`, including its explicit check
that a default pipeline exists. -/
def makeNameUnique (p : Option Pipeline) (g : OpsGroupSt) :
    Except DslError (OpsGroupSt × Pipeline) :=
  match p with
  | none => .error .noActiveContext
  | some st => .ok (makeNameUniqueP st g)

/-- opsGroupEnterP is `OpsGroup.__enter__` once the pipeline is known to be
present (the source re-checks the pipeline inside the two helpers it calls;
with a present pipeline those checks pass): set `recursive_ref` to the
lookup result, mint a name only when no match was found, then push self. -/
def opsGroupEnterP (st : Pipeline) (g : OpsGroupSt) : OpsGroupSt × Pipeline :=
  match findMatchingPure st.groups g.type g.name with
  | some r =>
    let g1 : OpsGroupSt := { g with recursive_ref := some r }
    (g1, pushOpsGroup st { type := g1.type, name := g1.name.getD [] })
  | none =>
    let g1 : OpsGroupSt := { g with recursive_ref := none }
    let (g2, st1) := makeNameUniqueP st g1
    (g2, pushOpsGroup st1 { type := g2.type, name := g2.name.getD [] })

/-- opsGroupEnter models `OpsGroup.__enter__`, whose first statement raises
`ValueError('Default pipeline not defined.')` when no default pipeline is
active.  A match of `'not self.recursive_ref'` in the source is exactly
"the lookup returned `None`", since a Python object is always truthy. -/
def opsGroupEnter (p : Option Pipeline) (g : OpsGroupSt) :
    Except DslError (OpsGroupSt × Pipeline) :=
  match p with
  | none => .error .noActiveContext
  | some st => .ok (opsGroupEnterP st g)

/-- opsGroupExit models `OpsGroup.__exit__`: it calls
`get_default_pipeline().pop_ops_group()` with no explicit check, so with no
active pipeline the method call on `None` raises `AttributeError`. -/
def opsGroupExit (p : Option Pipeline) : Except DslError Pipeline :=
  match p with
  | none => .error .absentPipelineAttributeError
  | some st => popOpsGroup st

/-- ScopeProg is a well-nested sequence of scope entries and exits:
`scope g body rest` enters `g`, runs `body` inside it, exits, and
continues with `rest`. -/
inductive ScopeProg where
  | done : ScopeProg
  | scope (g : OpsGroupSt) (body : ScopeProg) (rest : ScopeProg) : ScopeProg

/-- runScopes executes a well-nested sequence of scope entries and exits
against an active pipeline, via `opsGroupEnterP` and `popOpsGroup`. -/
def runScopes : ScopeProg → Pipeline → Except DslError Pipeline
  | .done, st => .ok st
  | .scope g body rest, st =>
    let st1 := (opsGroupEnterP st g).2
    match runScopes body st1 with
    | .error e => .error e
    | .ok st2 =>
      match popOpsGroup st2 with
      | .error e => .error e
      | .ok st3 => runScopes rest st3

mutual
/-- GroupTree is a node of the group tree: its kind, name, attached task
ids (`self.ops`) and child groups (`self.groups`). -/
inductive GroupTree where
  | node (ty : PyStr) (name : Option PyStr) (ops : List Nat) (children : GroupForest)
deriving DecidableEq, Repr

/-- GroupForest is a list of child group nodes (kept as a mutual inductive
so that all tree functions are structurally recursive). -/
inductive GroupForest where
  | nil
  | cons (c : GroupTree) (rest : GroupForest)
deriving DecidableEq, Repr
end

/-- pyRemoveOnce models the body `if self.ops and op in self.ops:
self.ops.remove(op)`: Python `list.remove` deletes the first occurrence,
which is `List.erase`, guarded exactly as in the source. -/
def pyRemoveOnce (op : Nat) (ops : List Nat) : List Nat :=
  if !ops.isEmpty && ops.contains op then ops.erase op else ops

mutual
/-- removeOpRecursive models `OpsGroup.remove_op_recursive(op)`: remove
`op` from this node's `ops` (first occurrence, if present), then recurse
into every child group. -/
def removeOpRecursive (op : Nat) : GroupTree → GroupTree
  | .node ty nm ops ch => .node ty nm (pyRemoveOnce op ops) (removeOpForest op ch)

/-- removeOpForest applies `removeOpRecursive` to every tree of a forest
(the source's `for sub_group in self.groups or []` loop). -/
def removeOpForest (op : Nat) : GroupForest → GroupForest
  | .nil => .nil
  | .cons c rest => .cons (removeOpRecursive op c) (removeOpForest op rest)
end

mutual
/-- treeContainsOp decides whether a task id occurs in some node's `ops`
list of the tree. -/
def treeContainsOp (op : Nat) : GroupTree → Bool
  | .node _ _ ops ch => ops.contains op || forestContainsOp op ch

/-- forestContainsOp decides whether a task id occurs in some node's `ops`
list of a forest. -/
def forestContainsOp (op : Nat) : GroupForest → Bool
  | .nil => false
  | .cons c rest => treeContainsOp op c || forestContainsOp op rest
end

mutual
/-- atMostOnceTree states the single-ownership invariant of the data model
for one task id: each node's `ops` list holds it at most once. -/
def atMostOnceTree (op : Nat) : GroupTree → Bool
  | .node _ _ ops ch => decide (ops.count op ≤ 1) && atMostOnceForest op ch

/-- atMostOnceForest is `atMostOnceTree` over every tree of a forest. -/
def atMostOnceForest (op : Nat) : GroupForest → Bool
  | .nil => true
  | .cons c rest => atMostOnceTree op c && atMostOnceForest op rest
end

/-- Modelled from the spec: `Pipeline.remove_op_from_groups(op)` (not under
`src/`) recursively removes a task reference from every node's `tasks`
list, i.e. `remove_op_recursive` from the root. -/
def removeOpFromGroups (root : GroupTree) (op : Nat) : GroupTree :=
  removeOpRecursive op root

/-- Modelled from the spec: the task object (`ContainerOp`, not under
`src/`) exposes a `dependent_names` query and a mutable `is_exit_handler`
flag; tasks are identity-compared via `id`. -/
structure ContainerOp where
  id : Nat
  dependent_names : List PyStr
  is_exit_handler : Bool
deriving DecidableEq, Repr

/-- ExitHandlerGroup is the `ExitHandler` node right after construction:
its base-class fields (`type = 'exit_handler'`, no name yet, empty `ops`)
plus the designated task stored in the `exit_op` attribute. -/
structure ExitHandlerGroup where
  type : PyStr
  name : Option PyStr
  ops : List Nat
  exit_op : Nat
deriving DecidableEq, Repr

/-- ExitHandlerResult bundles what `ExitHandler.__init__` leaves behind:
the tree after detaching the designated task, the designated task with its
flag updated, and the new exit-handler node. -/
structure ExitHandlerResult where
  root : GroupTree
  exitOp : ContainerOp
  handler : ExitHandlerGroup
deriving DecidableEq, Repr

/-- exitHandlerInit models `ExitHandler.__init__(exit_op)`.  The source
first runs the base constructor (which touches no pipeline state), then
raises `ValueError` if `exit_op.dependent_names` is non-empty, and only
afterwards calls `get_default_pipeline().remove_op_from_groups(exit_op)` —
so the dependents check fires even with no active pipeline, and with no
active pipeline the later method call on `None` raises `AttributeError`.
On success it detaches the task everywhere, sets `is_exit_handler`, and
stores the task in `self.exit_op` (it is not appended to `self.ops`). -/
def exitHandlerInit (p : Option GroupTree) (exit_op : ContainerOp) :
    Except DslError ExitHandlerResult :=
  if !exit_op.dependent_names.isEmpty then .error .invalidExitOp
  else match p with
    | none => .error .absentPipelineAttributeError
    | some root =>
      .ok { root := removeOpFromGroups root exit_op.id,
            exitOp := { exit_op with is_exit_handler := true },
            handler := { type := chars "exit_handler", name := none,
                         ops := [], exit_op := exit_op.id } }

/-- ParallelismGroup is the `Parallelism` node right after construction:
its kind `'parallel_limit'` and the stored bound (the base constructor
initialises `self.parallelism = None`). -/
structure ParallelismGroup where
  type : PyStr
  parallelism : Option Int
deriving DecidableEq, Repr

/-- parallelismInit models `Parallelism.__init__(parallelism)`:
`if parallelism:` is Python truthiness, satisfied exactly when the argument
is neither `None` nor `0`; only then does `assert parallelism > 0` run
(raising `AssertionError` on failure) and the bound get stored. -/
def parallelismInit (parallelism : Option Int) : Except DslError ParallelismGroup :=
  match parallelism with
  | none => .ok { type := chars "parallel_limit", parallelism := none }
  | some v =>
    if v = 0 then .ok { type := chars "parallel_limit", parallelism := none }
    else if v > 0 then .ok { type := chars "parallel_limit", parallelism := some v }
    else .error .invalidParallelism

/-- Modelled from the spec: a dynamic parameter reference (`PipelineParam`,
not under `src/`), opaque beyond identity. -/
structure PipelineParam where
  name : PyStr
deriving DecidableEq, Repr

/-- ItemList models a static collection of loop items; item contents are
opaque to this subsystem. -/
abbrev ItemList := List PyStr

/-- Modelled from the spec: the loop-argument value type (`LoopArguments`,
not under `src/`), opaque beyond its two wrapping constructors:
`from_pipeline_param` yields a symbolic placeholder, the plain constructor
wraps a static collection together with the loop's identifying code. -/
inductive LoopArguments where
  | fromPipelineParam (p : PipelineParam)
  | fromRawItems (items : ItemList) (code : PyStr)
deriving DecidableEq, Repr

/-- LoopArgsInput is the closed tagged variant of what Python's `isinstance`
dispatch in `ParallelFor.__init__` distinguishes: a dynamic parameter
reference, a raw static collection, or an already wrapped value. -/
inductive LoopArgsInput where
  | pipelineParam (p : PipelineParam)
  | itemList (items : ItemList)
  | loopArgs (la : LoopArguments)
deriving DecidableEq, Repr

/-- ParallelForGroup is the `ParallelFor` node right after construction:
kind `'for_loop'`, group name `'for-loop-' + code`, and the wrapped
loop arguments. -/
structure ParallelForGroup where
  type : PyStr
  name : Option PyStr
  loop_args : LoopArguments
deriving DecidableEq, Repr

/-- parallelForInit models `ParallelFor.__init__(loop_args)`.  The random
identifying code (a UUID truncated to the loop-argument encoding width) is
passed in as a parameter, since its generation is I/O.  Dispatch follows
the source: a `PipelineParam` is wrapped via `from_pipeline_param`, a raw
collection is wrapped as `LoopArguments(loop_args, code)`, and a value that
is already a `LoopArguments` is used unchanged. -/
def parallelForInit (input : LoopArgsInput) (code : PyStr) : ParallelForGroup :=
  { type := chars "for_loop",
    name := some (chars "for-loop-" ++ code),
    loop_args :=
      match input with
      | .pipelineParam p => .fromPipelineParam p
      | .itemList xs => .fromRawItems xs code
      | .loopArgs la => la }

/-- parallelForEnter models `ParallelFor.__enter__`: it runs the base
class's scope entry and then returns `self.loop_args` instead of the node
itself. -/
def parallelForEnter (p : Option Pipeline) (pf : ParallelForGroup) :
    Except DslError (LoopArguments × Pipeline) :=
  match p with
  | none => .error .noActiveContext
  | some st =>
    let (_, st1) := opsGroupEnterP st { type := pf.type, name := pf.name, recursive_ref := none }
    .ok (pf.loop_args, st1)

/-! Helper lemmas shared by the claim theorems. -/

theorem digitChar_isDigit (d : Nat) : (digitChar d).isDigit = true := by
  rcases d with _|_|_|_|_|_|_|_|_|d <;> rfl

theorem natToCharsAux_all_digit (fuel n : Nat) :
    (natToCharsAux fuel n).all Char.isDigit = true := by
  induction fuel generalizing n with
  | zero => rfl
  | succ fuel ih =>
    rw [natToCharsAux]
    split
    · simp [digitChar_isDigit]
    · simp [List.all_append, ih, digitChar_isDigit]

theorem natToChars_all_digit (n : Nat) : (natToChars n).all Char.isDigit = true :=
  natToCharsAux_all_digit (n + 1) n

theorem natToChars_ne_nil (n : Nat) : natToChars n ≠ [] := by
  rw [natToChars, natToCharsAux]
  split
  · simp
  · simp

theorem hyphenate_append (a b : PyStr) :
    hyphenate (a ++ b) = hyphenate a ++ hyphenate b := by
  simp [hyphenate]

theorem hyphenate_digits (s : PyStr) (h : s.all Char.isDigit = true) :
    hyphenate s = s := by
  induction s with
  | nil => rfl
  | cons c cs ih =>
    rw [List.all_cons, Bool.and_eq_true] at h
    have hne : ¬ c = '_' := by
      intro he
      rw [he] at h
      exact absurd h.1 (by decide)
    calc hyphenate (c :: cs) = (if c = '_' then '-' else c) :: hyphenate cs := rfl
    _ = c :: cs := by rw [if_neg hne, ih h.2]

theorem isPrefixThenDigits_append (pre ds : List Char) :
    isPrefixThenDigits pre (pre ++ ds) = (!ds.isEmpty && ds.all Char.isDigit) := by
  induction pre with
  | nil => rfl
  | cons c cs ih => simp [isPrefixThenDigits, ih]

theorem mintedName_decompose (ty n : PyStr) (gid : Nat) :
    mintedName ty (some n) gid =
      hyphenate (ty ++ chars "-" ++ n ++ chars "-") ++ natToChars gid := by
  simp only [mintedName]
  rw [show ty ++ chars "-" ++ (n ++ chars "-") ++ natToChars gid
        = (ty ++ chars "-" ++ n ++ chars "-") ++ natToChars gid by
      simp [List.append_assoc]]
  rw [hyphenate_append, hyphenate_digits _ (natToChars_all_digit gid)]

theorem matchesNamePattern_minted (ty n : PyStr) (gid : Nat) :
    matchesNamePattern ty n (mintedName ty (some n) gid) = true := by
  rw [matchesNamePattern, mintedName_decompose, isPrefixThenDigits_append]
  have h1 := natToChars_ne_nil gid
  have h2 := natToChars_all_digit gid
  simp [h2, List.isEmpty_iff, h1]

theorem find?_append_of_none {α : Type} (p : α → Bool) (l1 l2 : List α)
    (h : l1.find? p = none) : (l1 ++ l2).find? p = l2.find? p := by
  rw [List.find?_append, h, Option.none_or]

theorem pyRemoveOnce_not_mem (op : Nat) (ops : List Nat) (h : ops.count op ≤ 1) :
    (pyRemoveOnce op ops).contains op = false := by
  rw [pyRemoveOnce]
  split
  · have h1 : (ops.erase op).count op = ops.count op - 1 := List.count_erase_self op ops
    have h2 : (ops.erase op).count op = 0 := by omega
    have h3 : op ∉ ops.erase op := List.count_eq_zero.mp h2
    simpa using h3
  · next hcond =>
    cases hcc : ops.contains op with
    | false => rfl
    | true =>
      exfalso
      apply hcond
      have hne : ops ≠ [] := by
        intro he
        rw [he] at hcc
        exact Bool.noConfusion hcc
      have h4 : ops.isEmpty = false := by
        rw [← Bool.not_eq_true, List.isEmpty_iff]
        exact hne
      rw [Bool.and_eq_true, h4, hcc]
      exact ⟨rfl, rfl⟩

theorem pyRemoveOnce_frame (op : Nat) (ops : List Nat)
    (h : ops.contains op = false) : pyRemoveOnce op ops = ops := by
  have hc : (!ops.isEmpty && ops.contains op) = false := by
    rw [h, Bool.and_false]
  rw [pyRemoveOnce, hc]
  simp

mutual
theorem removeOpRecursive_frame (op : Nat) (t : GroupTree)
    (h : treeContainsOp op t = false) : removeOpRecursive op t = t := by
  cases t with
  | node ty nm ops ch =>
    rw [treeContainsOp, Bool.or_eq_false_iff] at h
    rw [removeOpRecursive, pyRemoveOnce_frame op ops h.1,
        removeOpForest_frame op ch h.2]

theorem removeOpForest_frame (op : Nat) (f : GroupForest)
    (h : forestContainsOp op f = false) : removeOpForest op f = f := by
  cases f with
  | nil => rfl
  | cons c rest =>
    rw [forestContainsOp, Bool.or_eq_false_iff] at h
    rw [removeOpForest, removeOpRecursive_frame op c h.1,
        removeOpForest_frame op rest h.2]
end

mutual
theorem removeOpRecursive_removed (op : Nat) (t : GroupTree)
    (h : atMostOnceTree op t = true) :
    treeContainsOp op (removeOpRecursive op t) = false := by
  cases t with
  | node ty nm ops ch =>
    rw [atMostOnceTree, Bool.and_eq_true, decide_eq_true_eq] at h
    rw [removeOpRecursive, treeContainsOp, pyRemoveOnce_not_mem op ops h.1,
        removeOpForest_removed op ch h.2]
    rfl

theorem removeOpForest_removed (op : Nat) (f : GroupForest)
    (h : atMostOnceForest op f = true) :
    forestContainsOp op (removeOpForest op f) = false := by
  cases f with
  | nil => rfl
  | cons c rest =>
    rw [atMostOnceForest, Bool.and_eq_true] at h
    rw [removeOpForest, forestContainsOp, removeOpRecursive_removed op c h.1,
        removeOpForest_removed op rest h.2]
    rfl
end

theorem opsGroupEnterP_pushes_one (st : Pipeline) (g : OpsGroupSt) :
    ∃ e, ((opsGroupEnterP st g).2).stack = st.stack ++ [e] := by
  rw [opsGroupEnterP]
  cases findMatchingPure st.groups g.type g.name <;> exact ⟨_, rfl⟩

theorem popOpsGroup_of_nonempty (st : Pipeline) (h : st.stack ≠ []) :
    popOpsGroup st = .ok { st with stack := st.stack.dropLast } := by
  rw [popOpsGroup, if_neg]
  simp [List.isEmpty_iff, h]

theorem runScopes_restores_stack (prog : ScopeProg) :
    ∀ st : Pipeline, ∃ st1, runScopes prog st = .ok st1 ∧ st1.stack = st.stack := by
  induction prog with
  | done => intro st; exact ⟨st, rfl, rfl⟩
  | scope g body rest ihb ihr =>
    intro st
    obtain ⟨e, he⟩ := opsGroupEnterP_pushes_one st g
    obtain ⟨st2, hrun2, hstk2⟩ := ihb (opsGroupEnterP st g).2
    have hne : st2.stack ≠ [] := by
      rw [hstk2, he]
      simp
    have hpop := popOpsGroup_of_nonempty st2 hne
    obtain ⟨st3, hrun3, hstk3⟩ := ihr { st2 with stack := st2.stack.dropLast }
    refine ⟨st3, ?_, ?_⟩
    · simp only [runScopes, hrun2, hpop, hrun3]
    · rw [hstk3]
      simp only [hstk2, he, List.dropLast_concat]

/-! Claim theorems. -/

/-- C9: `remove_op_recursive` removes the target task from this node's task
list if present and then recurses into every child: under the
single-ownership invariant (each node's list holds the task at most once)
the target occurs in no node's task list afterwards, and any (sub)tree not
containing the target is left entirely unchanged. -/
theorem c9_remove_op_recursive_removes_and_frames (op : Nat) (t : GroupTree) :
    (atMostOnceTree op t = true →
      treeContainsOp op (removeOpRecursive op t) = false) ∧
    (treeContainsOp op t = false → removeOpRecursive op t = t) :=
  ⟨removeOpRecursive_removed op t, removeOpRecursive_frame op t⟩

/-- Witness for C9 on a concrete tree: task 7 sits in a depth-two
descendant; removal eliminates it, and the sibling subtree `[3]` that does
not contain it is untouched. -/
theorem c9_witness :
    (atMostOnceTree 7 (.node (chars "pipeline") none [1]
        (.cons (.node (chars "condition") none [2]
          (.cons (.node (chars "graph") none [7] .nil) .nil))
        (.cons (.node (chars "condition") none [3] .nil) .nil))) = true ∧
     treeContainsOp 7 (removeOpRecursive 7 (.node (chars "pipeline") none [1]
        (.cons (.node (chars "condition") none [2]
          (.cons (.node (chars "graph") none [7] .nil) .nil))
        (.cons (.node (chars "condition") none [3] .nil) .nil)))) = false) ∧
    (treeContainsOp 7 (.node (chars "condition") none [3] .nil) = false ∧
     removeOpRecursive 7 (.node (chars "condition") none [3] .nil) =
       .node (chars "condition") none [3] .nil) :=
  ⟨⟨by decide,
    (c9_remove_op_recursive_removes_and_frames 7 _).1 (by decide)⟩,
   ⟨by decide,
    (c9_remove_op_recursive_removes_and_frames 7 _).2 (by decide)⟩⟩

/-- C3 counterexample: a tree whose root holds task 7 and a dependent-free
task 7.  Exit-handler construction succeeds and detaches 7 from the root,
but the resulting exit-handler node's own task list is empty — the task
does not appear in the exit-handler node's task list (it is stored in the
separate `exit_op` attribute), contradicting the claim that it appears in
exactly that list. -/
theorem c3_counterexample :
    exitHandlerInit
        (some (.node (chars "pipeline") (some (chars "p-1")) [7] .nil))
        ⟨7, [], false⟩
      = .ok { root := .node (chars "pipeline") (some (chars "p-1")) [] .nil,
              exitOp := ⟨7, [], true⟩,
              handler := { type := chars "exit_handler", name := none,
                           ops := [], exit_op := 7 } } ∧
    ({ type := chars "exit_handler", name := none, ops := [],
       exit_op := 7 } : ExitHandlerGroup).ops.contains 7 = false :=
  ⟨rfl, rfl⟩

/-- C3 (amended): for a designated task with no dependents, exit-handler
construction removes the task from every node's task list in the tree and
sets its `is_exit_handler` flag; afterwards the task appears in no node's
task list — in particular the exit-handler node's own task list is empty —
and the task is stored in the exit-handler node's `exit_op` attribute. -/
theorem c3_exit_handler_detaches (root : GroupTree) (op : ContainerOp)
    (hdep : op.dependent_names = [])
    (honce : atMostOnceTree op.id root = true) :
    exitHandlerInit (some root) op =
      .ok { root := removeOpFromGroups root op.id,
            exitOp := { op with is_exit_handler := true },
            handler := { type := chars "exit_handler", name := none,
                         ops := [], exit_op := op.id } } ∧
    treeContainsOp op.id (removeOpFromGroups root op.id) = false ∧
    ({ type := chars "exit_handler", name := none, ops := [],
       exit_op := op.id } : ExitHandlerGroup).ops = [] := by
  refine ⟨?_, ?_, rfl⟩
  · simp [exitHandlerInit, hdep]
  · simpa [removeOpFromGroups] using removeOpRecursive_removed op.id root honce

/-- Witness for C3 (amended) at a concrete tree and task. -/
theorem c3_witness :
    (([] : List PyStr) = [] ∧
     atMostOnceTree 7 (.node (chars "pipeline") (some (chars "p-1")) [7]
       (.cons (.node (chars "condition") none [2, 7] .nil) .nil)) = true) ∧
    (exitHandlerInit
        (some (.node (chars "pipeline") (some (chars "p-1")) [7]
          (.cons (.node (chars "condition") none [2, 7] .nil) .nil)))
        ⟨7, [], false⟩
      = .ok { root := removeOpFromGroups (.node (chars "pipeline")
                (some (chars "p-1")) [7]
                (.cons (.node (chars "condition") none [2, 7] .nil) .nil)) 7,
              exitOp := { id := 7, dependent_names := [],
                          is_exit_handler := true },
              handler := { type := chars "exit_handler", name := none,
                           ops := [], exit_op := 7 } } ∧
     treeContainsOp 7 (removeOpFromGroups (.node (chars "pipeline")
        (some (chars "p-1")) [7]
        (.cons (.node (chars "condition") none [2, 7] .nil) .nil)) 7) = false ∧
     ({ type := chars "exit_handler", name := none, ops := [],
        exit_op := 7 } : ExitHandlerGroup).ops = []) :=
  ⟨⟨rfl, by decide⟩,
   c3_exit_handler_detaches _ ⟨7, [], false⟩ rfl (by decide)⟩

/-- C4: exit-handler construction whose designated task already has at
least one dependent fails with the invalid-exit-op error; the check runs
before any tree access, so no tree or task state is produced or altered. -/
theorem c4_exit_handler_rejects_dependents (p : Option GroupTree)
    (op : ContainerOp) (h : op.dependent_names ≠ []) :
    exitHandlerInit p op = .error .invalidExitOp := by
  have hne : op.dependent_names.isEmpty = false := by
    simpa [List.isEmpty_iff] using h
  simp [exitHandlerInit, hne]

/-- Witness for C4: a task with one dependent is rejected. -/
theorem c4_witness :
    ([chars "downstream-op"] : List PyStr) ≠ [] ∧
    exitHandlerInit
        (some (.node (chars "pipeline") (some (chars "p-1")) [7] .nil))
        ⟨7, [chars "downstream-op"], false⟩
      = .error .invalidExitOp :=
  ⟨by decide,
   c4_exit_handler_rejects_dependents _ ⟨7, [chars "downstream-op"], false⟩
     (by decide)⟩

/-- C5 counterexample: `Parallelism(0)` does not fail — Python's
`if parallelism:` is false at `0`, so the assert never runs and the bound
is left unset — contradicting the claim that a bound of 0 fails with the
invalid-parallelism error. -/
theorem c5_counterexample :
    parallelismInit (some 0) =
      .ok { type := chars "parallel_limit", parallelism := none } ∧
    parallelismInit (some 0) ≠ .error .invalidParallelism := by
  refine ⟨rfl, ?_⟩
  intro h
  simp [parallelismInit] at h

/-- C5 (amended): parallelism-limit construction fails with the
invalid-parallelism error for every negative bound; a bound of 0 slips past
the truthiness check and is stored as unset (like an absent bound, and
without an error); an absent bound is stored as unset; bound 3 stores 3. -/
theorem c5_parallelism_validation :
    (∀ v : Int, v < 0 →
      parallelismInit (some v) = .error .invalidParallelism) ∧
    parallelismInit none =
      .ok { type := chars "parallel_limit", parallelism := none } ∧
    parallelismInit (some 0) =
      .ok { type := chars "parallel_limit", parallelism := none } ∧
    parallelismInit (some 3) =
      .ok { type := chars "parallel_limit", parallelism := some 3 } := by
  refine ⟨?_, rfl, rfl, rfl⟩
  intro v hv
  rw [parallelismInit]
  rw [if_neg (by omega), if_neg (by omega)]

/-- Witness for C5 (amended) at bound -2. -/
theorem c5_witness :
    (-2 : Int) < 0 ∧
    parallelismInit (some (-2)) = .error .invalidParallelism :=
  ⟨by decide, c5_parallelism_validation.1 (-2) (by decide)⟩

/-- C7: scoped entry of a Parallel-For node returns the loop-argument
handle, not the node: the constructor input wrapped as a symbolic
placeholder if it was a dynamic parameter reference, wrapped as a concrete
loop-argument value (tagged with the loop's code) if it was a static
collection, and unchanged if it was already wrapped. -/
theorem c7_parallel_for_enter_returns_loop_args (input : LoopArgsInput)
    (code : PyStr) (st : Pipeline) :
    ∃ st1, parallelForEnter (some st) (parallelForInit input code) =
      .ok (match input with
           | .pipelineParam p => LoopArguments.fromPipelineParam p
           | .itemList xs => LoopArguments.fromRawItems xs code
           | .loopArgs la => la, st1) := by
  cases input <;> exact ⟨_, rfl⟩

/-- C1: when the recursion lookup at scope entry finds a match — the first
previously registered group, in registration order, whose kind equals the
entering node's kind and whose name matches `<kind>-<base_name>-<digits>` —
the entering node's `recursive_ref` is set to that group and its name is
left untouched (no new name is assigned). -/
theorem c1_recursive_lookup_sets_ref (st : Pipeline) (g : OpsGroupSt)
    (r : RegGroup) (h : findMatchingPure st.groups g.type g.name = some r) :
    (∃ n, g.name = some n ∧ r.type = g.type ∧
      matchesNamePattern g.type n r.name = true ∧
      ∃ gs1 gs2, st.groups = gs1 ++ r :: gs2 ∧
        ∀ e ∈ gs1, matchesPrior g.type n e = false) ∧
    opsGroupEnter (some st) g =
      .ok ({ g with recursive_ref := some r },
           pushOpsGroup st { type := g.type, name := g.name.getD [] }) ∧
    ({ g with recursive_ref := some r } : OpsGroupSt).name = g.name := by
  have h0 := h
  cases hn : g.name with
  | none =>
    rw [hn] at h
    simp only [findMatchingPure] at h
    exact Option.noConfusion h
  | some n =>
    rw [hn] at h h0
    simp only [findMatchingPure] at h
    have hp := List.find?_some h
    rw [matchesPrior, Bool.and_eq_true] at hp
    obtain ⟨h1, h2⟩ := hp
    obtain ⟨_, as, bs, hxs, hall⟩ := List.find?_eq_some.mp h
    refine ⟨⟨n, rfl, eq_of_beq h1, h2, as, bs, hxs, ?_⟩, ?_, rfl⟩
    · intro e he
      have h9 := hall e he
      cases hb : matchesPrior g.type n e with
      | false => rfl
      | true =>
        rw [hb] at h9
        exact Bool.noConfusion h9
    · simp only [opsGroupEnter, opsGroupEnterP, hn, h0]

/-- Witness for C1: kind `graph`, base name `foo`, one registered group
named `graph-foo-1`; the lookup matches it, `recursive_ref` is set to it
and the entering node keeps the name `foo`. -/
theorem c1_witness :
    findMatchingPure [⟨chars "graph", chars "graph-foo-1"⟩] (chars "graph")
        (some (chars "foo")) = some ⟨chars "graph", chars "graph-foo-1"⟩ ∧
    ((∃ n, (some (chars "foo") : Option PyStr) = some n ∧
      chars "graph" = chars "graph" ∧
      matchesNamePattern (chars "graph") n (chars "graph-foo-1") = true ∧
      ∃ gs1 gs2,
        ([⟨chars "graph", chars "graph-foo-1"⟩] : List RegGroup) =
          gs1 ++ ⟨chars "graph", chars "graph-foo-1"⟩ :: gs2 ∧
        ∀ e ∈ gs1, matchesPrior (chars "graph") n e = false) ∧
     opsGroupEnter (some ⟨[], [⟨chars "graph", chars "graph-foo-1"⟩], 5⟩)
         ⟨chars "graph", some (chars "foo"), none⟩ =
       .ok (⟨chars "graph", some (chars "foo"),
             some ⟨chars "graph", chars "graph-foo-1"⟩⟩,
            pushOpsGroup ⟨[], [⟨chars "graph", chars "graph-foo-1"⟩], 5⟩
              ⟨chars "graph", chars "foo"⟩) ∧
     (⟨chars "graph", some (chars "foo"),
       some ⟨chars "graph", chars "graph-foo-1"⟩⟩ : OpsGroupSt).name =
       some (chars "foo")) :=
  ⟨by decide,
   c1_recursive_lookup_sets_ref ⟨[], [⟨chars "graph", chars "graph-foo-1"⟩], 5⟩
     ⟨chars "graph", some (chars "foo"), none⟩
     ⟨chars "graph", chars "graph-foo-1"⟩ (by decide)⟩

/-- C10: a group node entered without a given base name never matches a
prior node — the lookup returns `none` whatever is registered — so its
`recursive_ref` ends up unset and a fresh name `<kind>-<next_group_id>`
(underscores hyphenated) is always minted. -/
theorem c10_nameless_entry_always_mints (st : Pipeline) (ty : PyStr)
    (rr : Option RegGroup) :
    findMatchingPure st.groups ty none = none ∧
    opsGroupEnter (some st) ⟨ty, none, rr⟩ =
      .ok (⟨ty, some (mintedName ty none (st.group_id + 1)), none⟩,
           pushOpsGroup { st with group_id := st.group_id + 1 }
             ⟨ty, mintedName ty none (st.group_id + 1)⟩) :=
  ⟨rfl, rfl⟩

/-- C2 counterexample: with an empty context, enter and exit a `condition`
group with base name `flip`, then enter a second sibling with the same kind
and base name.  The first gets the minted name `condition-flip-1`; the
second is matched by the recursion lookup against the registered first
sibling, so its `recursive_ref` is set and its name stays `flip` — it does
not receive the fresh name `condition-flip-2` that the claim predicts. -/
theorem c2_counterexample :
    (opsGroupEnterP ⟨[], [], 0⟩
        ⟨chars "condition", some (chars "flip"), none⟩).1.name
      = some (chars "condition-flip-1") ∧
    popOpsGroup (opsGroupEnterP ⟨[], [], 0⟩
        ⟨chars "condition", some (chars "flip"), none⟩).2
      = .ok ⟨[], [⟨chars "condition", chars "condition-flip-1"⟩], 1⟩ ∧
    (opsGroupEnterP ⟨[], [⟨chars "condition", chars "condition-flip-1"⟩], 1⟩
        ⟨chars "condition", some (chars "flip"), none⟩).1
      = ⟨chars "condition", some (chars "flip"),
         some ⟨chars "condition", chars "condition-flip-1"⟩⟩ ∧
    some (chars "flip") ≠ some (chars "condition-flip-2") :=
  ⟨rfl, rfl, rfl, by decide⟩

/-- C2 (amended): when the lookup finds no match, scope entry synthesizes
the node's name as `<kind>-[<given-name>-]<next_group_id>` with all
underscores replaced by hyphens, drawing the context's strictly increasing
counter.  However, the minted name of the first sibling matches the
recursion pattern and remains in the registry of created groups after its
scope exits, so the second of two sibling nodes of the same kind and the
same given base name is treated as a recursive re-entry: its
`recursive_ref` is set to the first sibling's registered entry and no new
name is minted (its name stays the given base name). -/
theorem c2_sibling_names (st : Pipeline) (kind base : PyStr)
    (h : findMatchingPure st.groups kind (some base) = none) :
    opsGroupEnterP st ⟨kind, some base, none⟩ =
      (⟨kind, some (mintedName kind (some base) (st.group_id + 1)), none⟩,
       ⟨st.stack ++ [⟨kind, mintedName kind (some base) (st.group_id + 1)⟩],
        st.groups ++ [⟨kind, mintedName kind (some base) (st.group_id + 1)⟩],
        st.group_id + 1⟩) ∧
    popOpsGroup
      ⟨st.stack ++ [⟨kind, mintedName kind (some base) (st.group_id + 1)⟩],
       st.groups ++ [⟨kind, mintedName kind (some base) (st.group_id + 1)⟩],
       st.group_id + 1⟩ =
      .ok ⟨(st.stack ++
              [(⟨kind, mintedName kind (some base) (st.group_id + 1)⟩ : RegGroup)]).dropLast,
           st.groups ++ [⟨kind, mintedName kind (some base) (st.group_id + 1)⟩],
           st.group_id + 1⟩ ∧
    (opsGroupEnterP
        ⟨(st.stack ++
            [(⟨kind, mintedName kind (some base) (st.group_id + 1)⟩ : RegGroup)]).dropLast,
         st.groups ++ [⟨kind, mintedName kind (some base) (st.group_id + 1)⟩],
         st.group_id + 1⟩
        ⟨kind, some base, none⟩).1 =
      ⟨kind, some base,
       some ⟨kind, mintedName kind (some base) (st.group_id + 1)⟩⟩ := by
  have hfind : st.groups.find? (matchesPrior kind base) = none := by
    rw [findMatchingPure] at h
    exact h
  refine ⟨?_, ?_, ?_⟩
  · simp only [opsGroupEnterP, findMatchingPure, hfind, makeNameUniqueP,
      getNextGroupId, pushOpsGroup, Option.getD_some]
  · exact popOpsGroup_of_nonempty _ (by simp)
  · have hmatch : matchesPrior kind base
        ⟨kind, mintedName kind (some base) (st.group_id + 1)⟩ = true := by
      simp [matchesPrior, matchesNamePattern_minted]
    have hfind2 : List.find? (matchesPrior kind base)
        (st.groups ++
          [(⟨kind, mintedName kind (some base) (st.group_id + 1)⟩ : RegGroup)]) =
        some ⟨kind, mintedName kind (some base) (st.group_id + 1)⟩ := by
      rw [find?_append_of_none _ _ _ hfind]
      simp only [List.find?_cons, hmatch]
    simp only [opsGroupEnterP, findMatchingPure, hfind2]

/-- Witness for C2 (amended): the concrete run from the empty context with
kind `condition` and base name `flip`. -/
theorem c2_witness :
    findMatchingPure ([] : List RegGroup) (chars "condition")
        (some (chars "flip")) = none ∧
    (opsGroupEnterP ⟨[], [], 0⟩
        ⟨chars "condition", some (chars "flip"), none⟩ =
      (⟨chars "condition",
        some (mintedName (chars "condition") (some (chars "flip")) 1), none⟩,
       ⟨[⟨chars "condition",
          mintedName (chars "condition") (some (chars "flip")) 1⟩],
        [⟨chars "condition",
          mintedName (chars "condition") (some (chars "flip")) 1⟩], 1⟩) ∧
     popOpsGroup
       ⟨[⟨chars "condition",
          mintedName (chars "condition") (some (chars "flip")) 1⟩],
        [⟨chars "condition",
          mintedName (chars "condition") (some (chars "flip")) 1⟩], 1⟩ =
       .ok ⟨[], [⟨chars "condition",
                  mintedName (chars "condition") (some (chars "flip")) 1⟩], 1⟩ ∧
     (opsGroupEnterP
         ⟨[], [⟨chars "condition",
                mintedName (chars "condition") (some (chars "flip")) 1⟩], 1⟩
         ⟨chars "condition", some (chars "flip"), none⟩).1 =
       ⟨chars "condition", some (chars "flip"),
        some ⟨chars "condition",
              mintedName (chars "condition") (some (chars "flip")) 1⟩⟩) :=
  ⟨rfl, c2_sibling_names ⟨[], [], 0⟩ (chars "condition") (chars "flip") rfl⟩

/-- C6 counterexample: with no active context, exit-handler construction on
a task that has a dependent raises the invalid-exit-op error (the
dependents check runs before the context is touched), not the
no-active-context error; and scoped exit fails through the attribute error
on the absent context rather than the explicit no-active-context check. -/
theorem c6_counterexample :
    exitHandlerInit none ⟨1, [chars "op-a"], false⟩ =
      .error .invalidExitOp ∧
    DslError.invalidExitOp ≠ DslError.noActiveContext ∧
    opsGroupExit none = .error .absentPipelineAttributeError ∧
    DslError.absentPipelineAttributeError ≠ DslError.noActiveContext :=
  ⟨rfl, by decide, rfl, by decide⟩

/-- C6 (amended): with no active context, scoped entry, name generation and
recursion lookup fail through the explicit no-active-context check; scoped
exit and exit-handler construction also fail, but through the attribute
error of calling a method on the absent context — and exit-handler
construction validates the designated task first, so with a dependent-laden
task it raises the invalid-exit-op error instead. -/
theorem c6_no_active_context_behaviour :
    (∀ g : OpsGroupSt, opsGroupEnter none g = .error .noActiveContext) ∧
    (∀ g : OpsGroupSt, makeNameUnique none g = .error .noActiveContext) ∧
    (∀ (ty : PyStr) (nm : Option PyStr),
      getMatchingOpsgroupAlreadyInPipeline none ty nm =
        .error .noActiveContext) ∧
    opsGroupExit none = .error .absentPipelineAttributeError ∧
    (∀ op : ContainerOp, exitHandlerInit none op =
      .error (if op.dependent_names.isEmpty then
                DslError.absentPipelineAttributeError
              else DslError.invalidExitOp)) := by
  refine ⟨fun g => rfl, fun g => rfl, fun ty nm => rfl, rfl, fun op => ?_⟩
  rw [exitHandlerInit]
  cases hd : op.dependent_names.isEmpty <;> simp [hd]

/-- C8: under an active context, every scope entry pushes exactly one node
onto the stack; every scope exit on a non-empty stack pops exactly the top
and raises nothing (regardless of what the scope body did); and every
well-nested sequence of entries and exits runs without error and restores
the stack — in particular, starting from an empty stack it ends with an
empty stack. -/
theorem c8_stack_discipline :
    (∀ (st : Pipeline) (g : OpsGroupSt),
      ∃ e, ((opsGroupEnterP st g).2).stack = st.stack ++ [e]) ∧
    (∀ st : Pipeline, st.stack ≠ [] →
      popOpsGroup st = .ok { st with stack := st.stack.dropLast }) ∧
    (∀ (prog : ScopeProg) (st : Pipeline),
      ∃ st1, runScopes prog st = .ok st1 ∧ st1.stack = st.stack) :=
  ⟨opsGroupEnterP_pushes_one, popOpsGroup_of_nonempty,
   fun prog => runScopes_restores_stack prog⟩

/-- Witness for C8: popping a concrete one-element stack succeeds and
empties it. -/
theorem c8_witness :
    ([⟨chars "graph", chars "graph-1"⟩] : List RegGroup) ≠ [] ∧
    popOpsGroup ⟨[⟨chars "graph", chars "graph-1"⟩],
                 [⟨chars "graph", chars "graph-1"⟩], 1⟩ =
      .ok ⟨[], [⟨chars "graph", chars "graph-1"⟩], 1⟩ :=
  ⟨by decide,
   c8_stack_discipline.2.1 ⟨[⟨chars "graph", chars "graph-1"⟩],
     [⟨chars "graph", chars "graph-1"⟩], 1⟩ (by decide)⟩

end Kfp
